import Mathlib

/-!
Shallow embedding of `gsheets2dataframe.py` (class `GsToDfConverter`) and
verification of its specification.

The pure column-letter conversion `get_col_number` is translated directly from
the source.  The remote-spreadsheet state touched by `upload`,
`get_sheet_as_df`, `get_col_values_as_list`, `get_cell_value` and
`get_focus_tab` is modelled explicitly: a document is a list of worksheets,
each carrying its title, its declared size and its stored value grid, and the
transport collaborator's primitives (`worksheet`, `add_worksheet`, `update`,
`append_rows`, `col_values`, `acell`) act on that state as the spec describes
their interface.  Python exceptions are modelled with `Option`/`Except`.
-/

namespace GsToDf

/-- `get_col_number` from the source, translated verbatim:
`result = 0; for char in col_letter: result = result * 26 + (ord(char) - ord("A") + 1)`.
Python integers are modelled by `Int` (for non-uppercase characters the
per-character term can be negative, exactly as in Python). -/
def get_col_number (col_letter : String) : Int :=
  col_letter.data.foldl
    (fun result char => result * 26 + ((char.toNat : Int) - ('A'.toNat : Int) + 1)) 0

/-- A character is an uppercase letter A–Z (code points 65–90). -/
def isUpperAZ (c : Char) : Prop := 65 ≤ c.toNat ∧ c.toNat ≤ 90

instance (c : Char) : Decidable (isUpperAZ c) := by
  unfold isUpperAZ; infer_instance

/-- The letter value of the bijective base-26 numbering: A→1, …, Z→26. -/
def letterVal (c : Char) : Nat := c.toNat - 64

/-- The standard bijective base-26 column number of a letter string, written
positionally (specification-side definition, to be compared with the
source's left-to-right multiply-add loop). -/
def bijBase26 : List Char → Nat
  | [] => 0
  | c :: cs => letterVal c * 26 ^ cs.length + bijBase26 cs

/-- Value of a digit list under the multiply-add loop `a ↦ a * 26 + d`. -/
def val26 (l : List Nat) : Nat := l.foldl (fun a d => a * 26 + d) 0

/-- Column number of the all-A string of a given length:
`repA n = val26 (List.replicate n 1)`. -/
def repA : Nat → Nat
  | 0 => 0
  | n + 1 => 26 * repA n + 1

theorem foldl26_acc (l : List Nat) :
    ∀ a : Nat, l.foldl (fun a d => a * 26 + d) a = a * 26 ^ l.length + val26 l := by
  induction l with
  | nil => intro a; simp [val26]
  | cons d t ih =>
    intro a
    have h1 := ih (a * 26 + d)
    have h2 := ih d
    have hv : val26 (d :: t) = d * 26 ^ t.length + val26 t := by
      have : val26 (d :: t) = t.foldl (fun a d => a * 26 + d) d := by
        simp [val26]
      rw [this, h2]
    simp only [List.foldl_cons, List.length_cons]
    rw [h1, hv]
    ring

theorem val26_cons (d : Nat) (t : List Nat) :
    val26 (d :: t) = d * 26 ^ t.length + val26 t := by
  have : val26 (d :: t) = t.foldl (fun a d => a * 26 + d) d := by simp [val26]
  rw [this, foldl26_acc]

theorem repA_succ_pow (n : Nat) : repA (n + 1) = 26 ^ n + repA n := by
  induction n with
  | zero => simp [repA]
  | succ n ih =>
    show 26 * repA (n + 1) + 1 = 26 ^ (n + 1) + repA (n + 1)
    calc 26 * repA (n + 1) + 1 = 26 * (26 ^ n + repA n) + 1 := by rw [ih]
    _ = 26 ^ (n + 1) + (26 * repA n + 1) := by ring
    _ = 26 ^ (n + 1) + repA (n + 1) := rfl

theorem mul25_repA (n : Nat) : 25 * repA n + 1 = 26 ^ n := by
  induction n with
  | zero => simp [repA]
  | succ n ih =>
    show 25 * (26 * repA n + 1) + 1 = 26 ^ (n + 1)
    calc 25 * (26 * repA n + 1) + 1 = 26 * (25 * repA n + 1) := by ring
    _ = 26 * 26 ^ n := by rw [ih]
    _ = 26 ^ (n + 1) := by ring

theorem val26_le (l : List Nat) (h : ∀ x ∈ l, x ≤ 26) :
    val26 l ≤ 26 * repA l.length := by
  induction l with
  | nil => simp [val26, repA]
  | cons d t ih =>
    have hd : d ≤ 26 := h d (List.mem_cons_self d t)
    have ht := ih (fun x hx => h x (List.mem_cons_of_mem d hx))
    rw [val26_cons, List.length_cons]
    calc d * 26 ^ t.length + val26 t ≤ 26 * 26 ^ t.length + 26 * repA t.length := by
          exact Nat.add_le_add (Nat.mul_le_mul_right _ hd) ht
    _ = 26 * (26 ^ t.length + repA t.length) := by ring
    _ = 26 * repA (t.length + 1) := by rw [repA_succ_pow]

theorem le_val26 (l : List Nat) (h : ∀ x ∈ l, 1 ≤ x) :
    repA l.length ≤ val26 l := by
  induction l with
  | nil => simp [val26, repA]
  | cons d t ih =>
    have hd : 1 ≤ d := h d (List.mem_cons_self d t)
    have ht := ih (fun x hx => h x (List.mem_cons_of_mem d hx))
    rw [val26_cons, List.length_cons, repA_succ_pow]
    exact Nat.add_le_add (Nat.le_mul_of_pos_left _ (by omega) |>.trans
      (Nat.mul_le_mul_right _ hd)) ht

theorem repA_mono {m n : Nat} (h : m ≤ n) : repA m ≤ repA n := by
  induction n, h using Nat.le_induction with
  | base => exact Nat.le_refl _
  | succ n _ ih =>
    refine ih.trans ?_
    show repA n ≤ 26 * repA n + 1
    omega

theorem val26_lt_of_lex :
    ∀ d e : List Nat, d.length = e.length → (∀ x ∈ d, x ≤ 26) → (∀ x ∈ e, 1 ≤ x) →
      List.Lex (· < ·) d e → val26 d < val26 e := by
  intro d
  induction d with
  | nil =>
    intro e hlen _ _ hlex
    cases hlex with
    | nil => simp at hlen
  | cons a as ih =>
    intro e hlen hd he hlex
    cases hlex with
    | cons htail =>
      rename_i bs
      have hlen2 : as.length = bs.length := by
        simpa using hlen
      have h1 := ih bs hlen2 (fun x hx => hd x (List.mem_cons_of_mem _ hx))
        (fun x hx => he x (List.mem_cons_of_mem _ hx)) htail
      rw [val26_cons, val26_cons, hlen2]
      exact Nat.add_lt_add_left h1 _
    | rel hab =>
      rename_i b bs
      have hlen2 : as.length = bs.length := by simpa using hlen
      have ha26 : a ≤ 26 := hd a (List.mem_cons_self _ _)
      have hb1 : 1 ≤ b := he b (List.mem_cons_self _ _)
      have hub : val26 as ≤ 26 * repA as.length :=
        val26_le as (fun x hx => hd x (List.mem_cons_of_mem _ hx))
      have hlb : repA as.length ≤ val26 bs := by
        rw [hlen2]
        exact le_val26 bs (fun x hx => he x (List.mem_cons_of_mem _ hx))
      rw [val26_cons, val26_cons, ← hlen2]
      have hpow := mul25_repA as.length
      have hstep : a * 26 ^ as.length + 26 * repA as.length
          < b * 26 ^ as.length + repA as.length := by
        have hb : a + 1 ≤ b := hab
        have h2 : (a + 1) * 26 ^ as.length ≤ b * 26 ^ as.length :=
          Nat.mul_le_mul_right _ hb
        nlinarith [h2, hpow]
      calc a * 26 ^ as.length + val26 as
          ≤ a * 26 ^ as.length + 26 * repA as.length := Nat.add_le_add_left hub _
      _ < b * 26 ^ as.length + repA as.length := hstep
      _ ≤ b * 26 ^ as.length + val26 bs := Nat.add_le_add_left hlb _

theorem char_lt_toNat {a b : Char} (h : a < b) : a.toNat < b.toNat := h

theorem gcn_foldl (l : List Char) :
    ∀ a : Nat, (∀ c ∈ l, 65 ≤ c.toNat) →
      l.foldl (fun r c => r * 26 + ((c.toNat : Int) - ('A'.toNat : Int) + 1)) (a : Int)
        = (((l.map letterVal).foldl (fun x d => x * 26 + d) a : Nat) : Int) := by
  induction l with
  | nil => intro a _; simp
  | cons c t ih =>
    intro a h
    have hc : 65 ≤ c.toNat := h c (List.mem_cons_self _ _)
    have hstep : (a : Int) * 26 + ((c.toNat : Int) - ('A'.toNat : Int) + 1)
        = ((a * 26 + letterVal c : Nat) : Int) := by
      show (a : Int) * 26 + ((c.toNat : Int) - 65 + 1)
        = ((a * 26 + (c.toNat - 64) : Nat) : Int)
      omega
    simp only [List.foldl_cons, List.map_cons, hstep]
    exact ih (a * 26 + letterVal c) (fun x hx => h x (List.mem_cons_of_mem _ hx))

theorem get_col_number_eq_val26 (s : String) (h : ∀ c ∈ s.data, 65 ≤ c.toNat) :
    get_col_number s = ((val26 (s.data.map letterVal) : Nat) : Int) := by
  have := gcn_foldl s.data 0 h
  simpa [get_col_number, val26] using this

theorem val26_map_eq_bij (l : List Char) : val26 (l.map letterVal) = bijBase26 l := by
  induction l with
  | nil => simp [val26, bijBase26]
  | cons c t ih =>
    rw [List.map_cons, val26_cons, List.length_map, ih, bijBase26]

theorem letterVal_mem_bounds {l : List Char} (h : ∀ c ∈ l, isUpperAZ c) :
    ∀ x ∈ l.map letterVal, 1 ≤ x ∧ x ≤ 26 := by
  intro x hx
  rcases List.mem_map.mp hx with ⟨c, hc, rfl⟩
  have := h c hc
  unfold isUpperAZ at this
  unfold letterVal
  omega

theorem lex_map_letterVal :
    ∀ u v : List Char, (∀ c ∈ u, 65 ≤ c.toNat) →
      List.Lex (· < ·) u v → List.Lex (· < ·) (u.map letterVal) (v.map letterVal) := by
  intro u
  induction u with
  | nil =>
    intro v _ hlex
    cases hlex with
    | nil => exact List.Lex.nil
  | cons a as ih =>
    intro v hu hlex
    cases hlex with
    | cons htail =>
      exact List.Lex.cons (ih _ (fun x hx => hu x (List.mem_cons_of_mem _ hx)) htail)
    | rel hab =>
      refine List.Lex.rel ?_
      have h1 : a.toNat < _ := char_lt_toNat hab
      have h2 : 65 ≤ a.toNat := hu a (List.mem_cons_self _ _)
      unfold letterVal
      omega

/-- The spreadsheet column order on letter strings: shorter strings come
first, and strings of equal length are ordered lexicographically by
character. -/
def sheetColBefore (s t : String) : Prop :=
  s.data.length < t.data.length ∨
    (s.data.length = t.data.length ∧ List.Lex (· < ·) s.data t.data)

/-- Claim C1: on every non-empty string of uppercase letters A–Z, `get_col_number`
computes the standard bijective base-26 column index (left-to-right
multiply-add with letter values 1..26), and in particular "A"→1, "Z"→26,
"AA"→27, "AZ"→52, "BA"→53. -/
theorem get_col_number_is_bijective_base26 :
    (∀ s : String, s.data ≠ [] → (∀ c ∈ s.data, isUpperAZ c) →
      get_col_number s = ((bijBase26 s.data : Nat) : Int))
    ∧ get_col_number "A" = 1 ∧ get_col_number "Z" = 26 ∧ get_col_number "AA" = 27
    ∧ get_col_number "AZ" = 52 ∧ get_col_number "BA" = 53 := by
  refine ⟨?_, by decide, by decide, by decide, by decide, by decide⟩
  intro s _ h
  rw [get_col_number_eq_val26 s (fun c hc => (h c hc).1), val26_map_eq_bij]

/-- Witness for C1 at the concrete input "BA". -/
theorem get_col_number_is_bijective_base26_witness :
    get_col_number "BA" = ((bijBase26 "BA".data : Nat) : Int) :=
  get_col_number_is_bijective_base26.1 "BA" (by decide) (by decide)

/-- Claim C6 (divergence of the code from the claim): the code does not raise on malformed
column-letter strings; on the empty string it returns 0, and on "A0" (which
contains the non-alphabetic character '0') it silently returns the numeric
index 10. -/
theorem get_col_number_no_invalid_address_error :
    get_col_number "" = 0 ∧ get_col_number "A0" = 10 := by
  constructor <;> decide

/-- Claim C7: `get_col_number` is strictly monotone with respect to the
spreadsheet column order (shorter strings first, lexicographic within equal
length) on valid non-empty uppercase letter strings. -/
theorem get_col_number_strict_mono (s t : String)
    (hs : ∀ c ∈ s.data, isUpperAZ c) (ht : ∀ c ∈ t.data, isUpperAZ c)
    (_hsne : s.data ≠ []) (_htne : t.data ≠ [])
    (hord : sheetColBefore s t) : get_col_number s < get_col_number t := by
  have hs65 : ∀ c ∈ s.data, 65 ≤ c.toNat := fun c hc => (hs c hc).1
  have ht65 : ∀ c ∈ t.data, 65 ≤ c.toNat := fun c hc => (ht c hc).1
  rw [get_col_number_eq_val26 s hs65, get_col_number_eq_val26 t ht65]
  rw [Int.ofNat_lt]
  have hsb := letterVal_mem_bounds hs
  have htb := letterVal_mem_bounds ht
  rcases hord with hlen | ⟨hlen, hlex⟩
  · have h1 : val26 (s.data.map letterVal) ≤ 26 * repA s.data.length := by
      have := val26_le (s.data.map letterVal) (fun x hx => (hsb x hx).2)
      rwa [List.length_map] at this
    have h2 : repA t.data.length ≤ val26 (t.data.map letterVal) := by
      have := le_val26 (t.data.map letterVal) (fun x hx => (htb x hx).1)
      rwa [List.length_map] at this
    have h3 : 26 * repA s.data.length < repA (s.data.length + 1) := by
      show 26 * repA s.data.length < 26 * repA s.data.length + 1
      omega
    have h4 : repA (s.data.length + 1) ≤ repA t.data.length := repA_mono hlen
    omega
  · have hmaplen : (s.data.map letterVal).length = (t.data.map letterVal).length := by
      simpa using hlen
    exact val26_lt_of_lex _ _ hmaplen (fun x hx => (hsb x hx).2)
      (fun x hx => (htb x hx).1) (lex_map_letterVal _ _ hs65 hlex)

/-- Witness for C7 at the concrete inputs "Z" and "AA" (26 < 27). -/
theorem get_col_number_strict_mono_witness :
    get_col_number "Z" < get_col_number "AA" :=
  get_col_number_strict_mono "Z" "AA" (by decide) (by decide) (by decide) (by decide)
    (Or.inl (by decide))

/-- Claim C10 (implicit): `get_col_number` is a total deterministic function on
all strings: it is defined for every input, the empty string yields 0 (not
a positive index), and every character — also lowercase or non-alphabetic —
is folded into the multiply-add loop without validation ("a" yields 33,
"@" yields 0). -/
theorem get_col_number_total_unvalidated :
    get_col_number "" = 0
    ∧ (∀ (s : String) (c : Char),
        get_col_number (s.push c) = get_col_number s * 26 + ((c.toNat : Int) - 64))
    ∧ get_col_number "a" = 33 ∧ get_col_number "@" = 0 := by
  refine ⟨by decide, ?_, by decide, by decide⟩
  intro s c
  have hdata : (s.push c).data = s.data ++ [c] := rfl
  unfold get_col_number
  rw [hdata, List.foldl_append]
  simp only [List.foldl_cons, List.foldl_nil]
  have : ('A'.toNat : Int) = 65 := by decide
  rw [this]
  ring

/-! ### State model of the remote spreadsheet document

Modelled from the spec: the transport collaborator's document state and its
primitives (resolve a tab by exact name — with the tab-not-found outcome as
an explicit `none` —, create a tab of a declared size, read the full value
grid, bulk-write from A1, append rows, read a column, read a cell).  The
methods `upload`, `get_sheet_as_df`, `get_col_values_as_list`,
`get_cell_value` and `get_focus_tab` below are translated from the source
on top of these primitives. -/

/-- One worksheet (tab): its title, its declared size at creation, and the
stored grid of string cell values (`get_all_values`). -/
structure Worksheet where
  title : String
  rows : Nat
  cols : Nat
  values : List (List String)
deriving Repr, DecidableEq

/-- The in-memory table: column names plus data rows of string cells
(`df.columns`, `df.values`). -/
structure DataFrame where
  columns : List String
  values : List (List String)
deriving Repr, DecidableEq

/-- The spreadsheet document: an ordered list of worksheets. -/
structure Spreadsheet where
  tabs : List Worksheet
deriving Repr, DecidableEq

/-- Resolve a tab by exact title (first match). -/
def findTab (name : String) : List Worksheet → Option Worksheet
  | [] => none
  | w :: ws => if w.title = name then some w else findTab name ws

/-- `self.sheet.worksheet(name)` with the transport's tab-not-found outcome
modelled as `none`. -/
def worksheet (s : Spreadsheet) (name : String) : Option Worksheet :=
  findTab name s.tabs

/-- `self.sheet.add_worksheet(title, rows, cols)`: a freshly created tab has
an empty value grid. -/
def add_worksheet (s : Spreadsheet) (title : String) (rows cols : Nat) : Spreadsheet :=
  ⟨s.tabs ++ [{ title := title, rows := rows, cols := cols, values := [] }]⟩

/-- Replace the first tab with the given title by `f` of it. -/
def updateTabs (name : String) (f : Worksheet → Worksheet) : List Worksheet → List Worksheet
  | [] => []
  | w :: ws => if w.title = name then f w :: ws else w :: updateTabs name f ws

/-- Apply a mutation to the resolved tab inside the document. -/
def modifyTab (s : Spreadsheet) (name : String) (f : Worksheet → Worksheet) : Spreadsheet :=
  ⟨updateTabs name f s.tabs⟩

/-- Overlay a written row on an existing row (cells beyond the written row
keep their old value). -/
def overlayRow (oldRow newRow : List String) : List String :=
  newRow ++ oldRow.drop newRow.length

/-- Overlay a written grid on the existing grid, top-left aligned. -/
def overlay : List (List String) → List (List String) → List (List String)
  | old, [] => old
  | [], new => new
  | o :: os, n :: ns => overlayRow o n :: overlay os ns

/-- `focus_tab.update(range_name="A1", values=vs)`: bulk write starting at
row 1, column 1. -/
def update_A1 (w : Worksheet) (vs : List (List String)) : Worksheet :=
  { w with values := overlay w.values vs }

/-- `focus_tab.append_rows(rs)`: append rows after the existing content. -/
def append_rows (w : Worksheet) (rs : List (List String)) : Worksheet :=
  { w with values := w.values ++ rs }

/-- `focus_tab.col_values(n)`: the values of 1-based column `n`, top to
bottom (missing cells read as blank). -/
def col_values (w : Worksheet) (col_number : Int) : List String :=
  w.values.map (fun row => row.getD (col_number - 1).toNat "")

/-- `focus_tab.acell(cell).value`: parse the A1-style reference and read the
single cell; a cell outside the stored grid reads as `none`. -/
def acell_value (w : Worksheet) (cell : String) : Option String :=
  let letters := cell.takeWhile (fun c => c.isAlpha)
  let rowDigits := cell.drop letters.length
  match rowDigits.toNat? with
  | none => none
  | some r =>
    if r = 0 then none
    else
      match w.values.get? (r - 1) with
      | none => none
      | some row => row.get? (bijBase26 letters.data - 1)

/-- `upload` from the source: resolve the tab, creating it (1 row,
`len(df.columns)` columns) when absent; then bulk-write header plus rows
from A1 when the tab's value grid is empty, otherwise append the data rows. -/
def upload (s : Spreadsheet) (df : DataFrame) (worksheet_name : String) : Spreadsheet :=
  let s1 : Spreadsheet :=
    match worksheet s worksheet_name with
    | some _ => s
    | none => add_worksheet s worksheet_name 1 df.columns.length
  match worksheet s1 worksheet_name with
  | none => s1
  | some focus_tab =>
    if focus_tab.values = [] then
      modifyTab s1 worksheet_name (fun w => update_A1 w (df.columns :: df.values))
    else
      modifyTab s1 worksheet_name (fun w => append_rows w df.values)

/-- `get_focus_tab` from the source: resolve the tab, returning `None` (after
a printed diagnostic, not modelled) when it does not exist. -/
def get_focus_tab (s : Spreadsheet) (name : String) : Option Worksheet :=
  worksheet s name

/-- `get_sheet_as_df` from the source: `DataFrame(sheet_data[1:],
columns=sheet_data[0])`; the Python `IndexError` raised by `sheet_data[0]`
on a zero-row grid is modelled in the `Except` error channel. -/
def get_sheet_as_df (s : Spreadsheet) (name : String) :
    Except String (Option DataFrame) :=
  match get_focus_tab s name with
  | some focus_tab =>
    match focus_tab.values with
    | [] => Except.error "IndexError: list index out of range"
    | r0 :: rest => Except.ok (some ⟨r0, rest⟩)
  | none => Except.ok none

/-- `get_col_values_as_list` from the source. -/
def get_col_values_as_list (s : Spreadsheet) (name : String) (col_letter : String) :
    Option (List String) :=
  let focus_tab := get_focus_tab s name
  let col_number := get_col_number col_letter
  match focus_tab with
  | some tab => some (col_values tab col_number)
  | none => none

/-- `get_cell_value` from the source (outer `none` = worksheet missing,
inner value = the transport's cell read). -/
def get_cell_value (s : Spreadsheet) (name : String) (cell : String) :
    Option (Option String) :=
  match get_focus_tab s name with
  | some tab => some (acell_value tab cell)
  | none => none

/-- `get_colA_as_list` from the source. -/
def get_colA_as_list (s : Spreadsheet) (name : String) : Option (List String) :=
  get_col_values_as_list s name "A"

/-- `get_A1_value` from the source. -/
def get_A1_value (s : Spreadsheet) (name : String) : Option (Option String) :=
  get_cell_value s name "A1"

theorem findTab_updateTabs (name : String) (f : Worksheet → Worksheet)
    (hf : ∀ w, (f w).title = w.title) :
    ∀ l w, findTab name l = some w →
      findTab name (updateTabs name f l) = some (f w) := by
  intro l
  induction l with
  | nil => intro w h; simp [findTab] at h
  | cons v vs ih =>
    intro w h
    by_cases hv : v.title = name
    · rw [findTab, if_pos hv] at h
      cases h
      rw [updateTabs, if_pos hv, findTab, if_pos ((hf v).trans hv)]
    · rw [findTab, if_neg hv] at h
      rw [updateTabs, if_neg hv, findTab, if_neg hv]
      exact ih w h

theorem findTab_append (name : String) :
    ∀ l l2 : List Worksheet, findTab name l = none →
      findTab name (l ++ l2) = findTab name l2 := by
  intro l
  induction l with
  | nil => intro l2 _; rfl
  | cons v vs ih =>
    intro l2 h
    by_cases hv : v.title = name
    · rw [findTab, if_pos hv] at h; cases h
    · rw [findTab, if_neg hv] at h
      rw [List.cons_append, findTab, if_neg hv]
      exact ih l2 h

theorem overlay_nil_left (vs : List (List String)) : overlay [] vs = vs := by
  cases vs <;> rfl

theorem upload_found_empty (s : Spreadsheet) (df : DataFrame) (name : String)
    (tab : Worksheet) (hfind : worksheet s name = some tab) (hempty : tab.values = []) :
    worksheet (upload s df name) name = some (update_A1 tab (df.columns :: df.values)) := by
  have h1 : upload s df name
      = modifyTab s name (fun w => update_A1 w (df.columns :: df.values)) := by
    unfold upload
    rw [hfind]
    simp only [hfind, hempty, if_pos]
  rw [h1]
  show findTab name (updateTabs name (fun w => update_A1 w (df.columns :: df.values)) s.tabs)
    = some (update_A1 tab (df.columns :: df.values))
  exact findTab_updateTabs name (fun w => update_A1 w (df.columns :: df.values))
    (fun w => rfl) s.tabs tab hfind

theorem upload_found_nonempty (s : Spreadsheet) (df : DataFrame) (name : String)
    (tab : Worksheet) (hfind : worksheet s name = some tab) (hne : tab.values ≠ []) :
    worksheet (upload s df name) name = some (append_rows tab df.values) := by
  have h1 : upload s df name = modifyTab s name (fun w => append_rows w df.values) := by
    unfold upload
    rw [hfind]
    simp [hfind, hne]
  rw [h1]
  show findTab name (updateTabs name (fun w => append_rows w df.values) s.tabs)
    = some (append_rows tab df.values)
  exact findTab_updateTabs name (fun w => append_rows w df.values)
    (fun w => rfl) s.tabs tab hfind

theorem upload_absent (s : Spreadsheet) (df : DataFrame) (name : String)
    (habsent : worksheet s name = none) :
    worksheet (upload s df name) name
      = some { title := name, rows := 1, cols := df.columns.length,
               values := df.columns :: df.values } := by
  set newTab : Worksheet :=
    { title := name, rows := 1, cols := df.columns.length, values := [] } with hnew
  have hres : worksheet (add_worksheet s name 1 df.columns.length) name = some newTab := by
    show findTab name (s.tabs ++ [newTab]) = some newTab
    rw [findTab_append name s.tabs [newTab] habsent, findTab, if_pos rfl]
  have h1 : upload s df name
      = modifyTab (add_worksheet s name 1 df.columns.length) name
          (fun w => update_A1 w (df.columns :: df.values)) := by
    unfold upload
    rw [habsent]
    simp only [hres]
    rfl
  rw [h1]
  have h2 := findTab_updateTabs name (fun w => update_A1 w (df.columns :: df.values))
    (fun w => rfl) (s.tabs ++ [newTab]) newTab hres
  show findTab name (updateTabs name _ (s.tabs ++ [newTab])) = _
  rw [h2]
  simp [update_A1, overlay_nil_left, hnew]

/-- Claim C2: `upload` into an existing tab whose value grid has zero rows
performs the bulk write from row 1, column 1: afterwards the tab's contents
are exactly the header row followed by the data rows. -/
theorem upload_into_empty_tab (s : Spreadsheet) (df : DataFrame) (name : String)
    (tab : Worksheet) (hfind : worksheet s name = some tab) (hempty : tab.values = []) :
    (worksheet (upload s df name) name).map Worksheet.values
      = some (df.columns :: df.values) := by
  rw [upload_found_empty s df name tab hfind hempty]
  simp [update_A1, hempty, overlay_nil_left]

/-- Witness for C2 at the spec's example: header "X" with data rows ["1"],
["2"] written into an empty tab leaves contents `[["X"], ["1"], ["2"]]`. -/
theorem upload_into_empty_tab_witness :
    (worksheet (upload ⟨[⟨"T", 1, 1, []⟩]⟩ ⟨["X"], [["1"], ["2"]]⟩ "T") "T").map
        Worksheet.values
      = some [["X"], ["1"], ["2"]] :=
  upload_into_empty_tab ⟨[⟨"T", 1, 1, []⟩]⟩ ⟨["X"], [["1"], ["2"]]⟩ "T"
    ⟨"T", 1, 1, []⟩ rfl rfl

/-- Claim C3: `upload` into a tab with a non-empty value grid appends only
the data rows, in order, after the existing contents; the existing rows
(header included) are an unchanged prefix and the row count grows by
exactly the number of data rows. -/
theorem upload_into_populated_tab (s : Spreadsheet) (df : DataFrame) (name : String)
    (tab : Worksheet) (hfind : worksheet s name = some tab) (hne : tab.values ≠ []) :
    (worksheet (upload s df name) name).map Worksheet.values
      = some (tab.values ++ df.values)
    ∧ (tab.values ++ df.values).take tab.values.length = tab.values
    ∧ (tab.values ++ df.values).length = tab.values.length + df.values.length := by
  refine ⟨?_, ?_, ?_⟩
  · rw [upload_found_nonempty s df name tab hfind hne]; rfl
  · simp
  · simp

/-- Witness for C3 at the spec's scenario: a tab containing
`[["X"], ["1"]]` plus data rows `[["2"]]` yields `[["X"], ["1"], ["2"]]`. -/
theorem upload_into_populated_tab_witness :
    (worksheet (upload ⟨[⟨"T2", 1, 1, [["X"], ["1"]]⟩]⟩ ⟨["X"], [["2"]]⟩ "T2") "T2").map
        Worksheet.values
      = some [["X"], ["1"], ["2"]]
    ∧ List.take 2 [["X"], ["1"], ["2"]] = [["X"], ["1"]]
    ∧ ([["X"], ["1"], ["2"]] : List (List String)).length = 2 + 1 :=
  upload_into_populated_tab ⟨[⟨"T2", 1, 1, [["X"], ["1"]]⟩]⟩ ⟨["X"], [["2"]]⟩ "T2"
    ⟨"T2", 1, 1, [["X"], ["1"]]⟩ rfl (by decide)

/-- Claim C4: `upload` with a tab name absent from the document first
creates a tab with that name, sized 1 row by the table's column count, and
then performs the (empty-tab) write: afterwards a tab with that name exists,
with the written column count and with contents header-then-rows. -/
theorem upload_creates_missing_tab (s : Spreadsheet) (df : DataFrame) (name : String)
    (habsent : worksheet s name = none) :
    (worksheet (upload s df name) name).map (fun t => (t.title, t.cols, t.values))
      = some (name, df.columns.length, df.columns :: df.values) := by
  rw [upload_absent s df name habsent]
  rfl

/-- Witness for C4: uploading a two-column table into the absent tab "New"
creates "New" with 2 columns. -/
theorem upload_creates_missing_tab_witness :
    (worksheet (upload ⟨[]⟩ ⟨["Name", "Age"], [["Ann", "30"]]⟩ "New") "New").map
        (fun t => (t.title, t.cols, t.values))
      = some ("New", 2, [["Name", "Age"], ["Ann", "30"]]) :=
  upload_creates_missing_tab ⟨[]⟩ ⟨["Name", "Age"], [["Ann", "30"]]⟩ "New" rfl

/-- Claim C5: on a tab name that does not resolve, `get_sheet_as_df`,
`get_col_values_as_list` and `get_cell_value` all return `None` and raise
no exception (the `Except` error channel of `get_sheet_as_df` is not
used). -/
theorem missing_tab_reads_return_none (s : Spreadsheet) (name cl cell : String)
    (h : worksheet s name = none) :
    get_sheet_as_df s name = Except.ok none
    ∧ get_col_values_as_list s name cl = none
    ∧ get_cell_value s name cell = none := by
  refine ⟨?_, ?_, ?_⟩ <;>
    simp [get_sheet_as_df, get_col_values_as_list, get_cell_value, get_focus_tab, h]

/-- Witness for C5 on a document holding only "Sheet1", reading the absent
tab "Missing". -/
theorem missing_tab_reads_return_none_witness :
    get_sheet_as_df ⟨[⟨"Sheet1", 1, 1, [["v"]]⟩]⟩ "Missing" = Except.ok none
    ∧ get_col_values_as_list ⟨[⟨"Sheet1", 1, 1, [["v"]]⟩]⟩ "Missing" "A" = none
    ∧ get_cell_value ⟨[⟨"Sheet1", 1, 1, [["v"]]⟩]⟩ "Missing" "A1" = none :=
  missing_tab_reads_return_none ⟨[⟨"Sheet1", 1, 1, [["v"]]⟩]⟩ "Missing" "A" "A1" rfl

/-- Claim C8: write-then-read round trip: uploading a table into a
previously nonexistent tab and reading that tab back yields the same header
row and the same data rows (all cells strings). -/
theorem upload_then_read_roundtrip (s : Spreadsheet) (df : DataFrame) (name : String)
    (habsent : worksheet s name = none) :
    get_sheet_as_df (upload s df name) name = Except.ok (some df) := by
  unfold get_sheet_as_df get_focus_tab
  rw [upload_absent s df name habsent]

/-- Witness for C8 at the spec's example: header ["Name","Age"] and rows
[["Ann","30"], ["Bo","25"]] round-trip through the absent tab "People". -/
theorem upload_then_read_roundtrip_witness :
    get_sheet_as_df
        (upload ⟨[]⟩ ⟨["Name", "Age"], [["Ann", "30"], ["Bo", "25"]]⟩ "People") "People"
      = Except.ok (some ⟨["Name", "Age"], [["Ann", "30"], ["Bo", "25"]]⟩) :=
  upload_then_read_roundtrip ⟨[]⟩ ⟨["Name", "Age"], [["Ann", "30"], ["Bo", "25"]]⟩
    "People" rfl

/-- Claim C9: `get_sheet_as_df` on an existing tab whose value grid has zero
rows does not produce a well-formed table: the header construction indexes
`sheet_data[0]` on the empty grid and fails (IndexError); the zero-row case
is not handled before that construction. -/
theorem read_zero_row_tab_fails (s : Spreadsheet) (name : String) (tab : Worksheet)
    (hfind : get_focus_tab s name = some tab) (hempty : tab.values = []) :
    get_sheet_as_df s name = Except.error "IndexError: list index out of range" := by
  simp [get_sheet_as_df, hfind, hempty]

/-- Witness for C9 on a document whose tab "Empty" exists with a zero-row
grid. -/
theorem read_zero_row_tab_fails_witness :
    get_sheet_as_df ⟨[⟨"Empty", 1, 1, []⟩]⟩ "Empty"
      = Except.error "IndexError: list index out of range" :=
  read_zero_row_tab_fails ⟨[⟨"Empty", 1, 1, []⟩]⟩ "Empty" ⟨"Empty", 1, 1, []⟩ rfl rfl

end GsToDf
